import Mathlib

/-!
Verification of `src/python/dynamic_graph_manager/device/robot.py`.

Shallow embedding of the `Robot` class.  External collaborators (the
dynamic-graph device, the real-time tracer, the ROS publish bridge) are
modelled as explicit state plus an event log: every call the Python code
makes into an external library is recorded as an `Event`, and the
environment `Env` may make any such call fail (fault injection), which
models a raised exception.  Python exceptions are `Except` errors; the
single bare `except:` in `initialize_tracer` is the only recovery point.

The class-level attribute `Robot.autoRecomputedSignals` (a Python list
shared by all instances, mutated in place by `append`) lives in `World`,
which is threaded through every operation; per-instance attributes live
in the `Robot` structure.
-/

namespace DGM

/-- External calls the Python code performs, with their arguments. -/
inductive Event where
  /-- Call `tracer.setBufferSize(n)`. -/
  | setBufferSize (n : Nat)
  /-- Call `tracer.open(dir, file_start, file_ext)`. -/
  | tracerOpen (dir fileStart fileExt : String)
  /-- Call `device.after.addSignal(s)`. -/
  | afterAddSignal (s : String)
  /-- Call `device.after.addDownsampledSignal(s, n)`. -/
  | afterAddDownsampled (s : String) (n : Nat)
  /-- Call `device.after.rmSignal(s)`. -/
  | afterRmSignal (s : String)
  /-- Call `tracer.add(s, filename)`, performed inside `dynamic_graph.tools.addTrace`. -/
  | traceAdd (s : String)
  /-- Call `ros.rosPublish.add(typ, topic, transportTopic)`. -/
  | rosPublishAdd (typ topic transportTopic : String)
  /-- Call `plug(signal, ros.rosPublish.signal(topic))`. -/
  | plugSig (sig topic : String)
  /-- Call `tracer.start()`. -/
  | tracerStart
  /-- Call `tracer.dump()`. -/
  | tracerDump
  /-- Call `tracer.stop()`. -/
  | tracerStop
  /-- Call `tracer.close()`. -/
  | tracerClose
  /-- Call `tracer.clear()`. -/
  | tracerClear
  deriving DecidableEq, Repr

/-- State of a `TracerRealTime` entity, as far as `robot.py` manipulates it. -/
structure TracerRealTime where
  name : String
  bufferSize : Option Nat
  /-- Holds `some (dir, file_start, file_ext)` once `tracer.open` has been called. -/
  openedAt : Option (String × String × String)
  running : Bool
  deriving DecidableEq, Repr

/-- State of the dynamic-graph device as far as `robot.py` manipulates it:
its name, the qualified names of its exposed signals (`device.signals()`),
and the post-step recomputation lists managed through `device.after`. -/
structure Device where
  name : String
  signalNames : List String
  after : List String
  afterDownsampled : List (String × Nat)
  deriving DecidableEq, Repr

/-- Process-wide state shared by all `Robot` instances: the class-level
Python list `Robot.autoRecomputedSignals` (mutated in place by `append`,
hence aliased across instances) and the log of external calls. -/
structure World where
  autoRecomputedSignals : List String
  events : List Event
  deriving DecidableEq, Repr

/-- Per-instance attributes of a `Robot`. -/
structure Robot where
  name : String
  device : Device
  tracer : Option TracerRealTime
  /-- Field `self.tracedSignals['device']`. -/
  tracedSignalsDevice : List String
  /-- Field `self.device_signals_names`. -/
  device_signals_names : List String
  /-- Whether `self.ros` has been constructed (the transport bridge exists). -/
  hasRos : Bool
  /-- topics registered on `self.ros.rosPublish`: `(topic, transport topic)`. -/
  rosTopics : List (String × String)
  deriving DecidableEq, Repr

/-- Environment: result of the remote parameter lookup
`rospy.get_param("/dynamic_graph/log_dir")` (an error models the raised
exception on lookup failure), the values of `os.path.expanduser("~")` and
`time.strftime("%Y_%m_%d_%H_%M_%S")`, and fault injection for every other
external call (`fails ev = true` models that call raising). -/
structure Env where
  getParamResult : Except Unit String
  home : String
  timestamp : String
  fails : Event → Bool

/-- Perform one external call: raise if the environment makes it fail,
otherwise log it. -/
def emit (e : Env) (ev : Event) (w : World) : Except Event World :=
  if e.fails ev then .error ev else .ok { w with events := w.events ++ [ev] }

/-- Value of `Robot.tracerSize = 2**20`, the class-level default buffer size. -/
def tracerSize : Nat := 2 ^ 20

/-- Whether a `"::"` separator occurs in the char list. -/
def containsSep : List Char → Bool
  | ':' :: ':' :: _ => true
  | _ :: rest => containsSep rest
  | [] => false

/-- Last field of the left-to-right, non-overlapping split on `"::"`
(the semantics of Python `str.split`): a leading separator cuts and the
last field is that of the remainder; a leading ordinary char is dropped
when a separator still occurs further right, and otherwise the remaining
suffix is the last field. -/
def lastComponent : List Char → List Char
  | [] => []
  | ':' :: ':' :: rest => lastComponent rest
  | c :: rest => if containsSep rest then lastComponent rest else c :: rest

/-- Embedding of `signal.name.split('::')[-1]`: Python `str.split` is a left-to-right
non-overlapping split, and `[-1]` takes its last field. -/
def shortName (q : String) : String := String.mk (lastComponent q.data)

/-- The log directory resolved in `initialize_tracer`: the remote parameter
when the lookup succeeds, otherwise
`os.path.join(os.path.expanduser("~"), ".dynamic_graph_manager", time.strftime("%Y_%m_%d_%H_%M_%S"))`. -/
def resolveLogDir (e : Env) : String :=
  match e.getParamResult with
  | .ok d => d
  | .error _ => e.home ++ "/" ++ ".dynamic_graph_manager" ++ "/" ++ e.timestamp

/-- Look up a qualified signal name by its short name. -/
def sigLookup (sigs : List String) (n : String) : String :=
  (sigs.find? (fun q => shortName q = n)).getD n

/-- Method `device.signal(n)`: look up a device signal by its short name,
returning a handle identified here by the qualified signal name. -/
def Device.signal (d : Device) (n : String) : String :=
  sigLookup d.signalNames n

/-- Modelled from the spec: `dynamic_graph.tools.addTrace` is an external
helper whose source is not part of this repository.  Per the spec's data
model ("Automatically recomputed signals through the use of device.after"
/ "Registers every signal exposed by the device for tracing"), it
registers `entityName.signalName` with the tracer and schedules that same
name in the device's post-step recomputation list `device.after`. -/
def addTrace (e : Env) (entityName signalName : String) (r : Robot) (w : World) :
    Except Event (Robot × World) :=
  (emit e (.traceAdd (entityName ++ "." ++ signalName)) w).bind fun w =>
  (emit e (.afterAddSignal (entityName ++ "." ++ signalName)) w).bind fun w =>
  .ok ({ r with device :=
          { r.device with after := r.device.after ++ [entityName ++ "." ++ signalName] } }, w)

/-- Method `Robot.add_trace`: guarded on `self.tracer`; appends
`'{0}.{1}'.format(entityName, signalName)` to the shared class-level list
`autoRecomputedSignals`, then calls the external `addTrace`. -/
def add_trace (e : Env) (r : Robot) (entityName signalName : String) (w : World) :
    Except Event (Robot × World) :=
  match r.tracer with
  | none => .ok (r, w)
  | some _ =>
    addTrace e entityName signalName r
      { w with autoRecomputedSignals :=
          w.autoRecomputedSignals ++ [entityName ++ "." ++ signalName] }

/-- Method `Robot.initialize_tracer`: when no tracer is present, create
`TracerRealTime('trace')`, size its buffer, resolve the log directory
(the only caught failure is the parameter lookup, folded into
`resolveLogDir`), open the tracer there, and schedule
`'{0}.triger'.format(self.tracer.name)` in `device.after`. -/
def initialize_tracer (e : Env) (r : Robot) (w : World) : Except Event (Robot × World) :=
  match r.tracer with
  | some _ => .ok (r, w)
  | none =>
    (emit e (.setBufferSize tracerSize) w).bind fun w =>
    (emit e (.tracerOpen (resolveLogDir e) "dg_" ".dat") w).bind fun w =>
    (emit e (.afterAddSignal ("trace" ++ ".triger")) w).bind fun w =>
    .ok ({ r with
            tracer := some { name := "trace", bufferSize := some tracerSize,
                             openedAt := some (resolveLogDir e, "dg_", ".dat"),
                             running := false },
            device := { r.device with after := r.device.after ++ ["trace" ++ ".triger"] } }, w)

/-- Method `Robot.start_tracer`: start the tracer if it has not been stopped. -/
def start_tracer (e : Env) (r : Robot) (w : World) : Except Event (Robot × World) :=
  match r.tracer with
  | none => .ok (r, w)
  | some tr =>
    (emit e .tracerStart w).bind fun w =>
    .ok ({ r with tracer := some { tr with running := true } }, w)

/-- The loop `for s in self.autoRecomputedSignals: self.device.after.rmSignal(s)`
inside `stop_tracer`.  `rmSignal` removes the named signal from the
post-step list (first occurrence). -/
def rmLoop (e : Env) (dev : Device) (names : List String) (w : World) :
    Except Event (Device × World) :=
  match names with
  | [] => .ok (dev, w)
  | s :: rest =>
    (emit e (.afterRmSignal s) w).bind fun w =>
    rmLoop e { dev with after := dev.after.erase s } rest w

/-- Method `Robot.stop_tracer`: guarded on `self.tracer`; dump/stop/close/clear the
tracer, remove every name of the shared `autoRecomputedSignals` list from
`device.after`, and null the tracer reference. -/
def stop_tracer (e : Env) (r : Robot) (w : World) : Except Event (Robot × World) :=
  match r.tracer with
  | none => .ok (r, w)
  | some _ =>
    (emit e .tracerDump w).bind fun w =>
    (emit e .tracerStop w).bind fun w =>
    (emit e .tracerClose w).bind fun w =>
    (emit e .tracerClear w).bind fun w =>
    (rmLoop e r.device w.autoRecomputedSignals w).bind fun p =>
    .ok ({ r with tracer := none, device := p.1 }, p.2)

/-- Method `Robot.__del__`: call `stop_tracer` when a tracer is still present. -/
def robotDel (e : Env) (r : Robot) (w : World) : Except Event (Robot × World) :=
  match r.tracer with
  | none => .ok (r, w)
  | some _ => stop_tracer e r w

/-- Method `Robot.export_signal_to_ros`: default the topic name to the signal
name, register the topic with `rosPublish.add("vector", topic, "/dg__" + topic)`
and then `plug` the signal into the bridge's input signal. -/
def export_signal_to_ros (e : Env) (r : Robot) (sig : String) (topicName : Option String)
    (w : World) : Except Event (Robot × World) :=
  match topicName with
  | none =>
    (emit e (.rosPublishAdd "vector" sig ("/dg__" ++ sig)) w).bind fun w =>
    (emit e (.plugSig sig sig) w).bind fun w =>
    .ok ({ r with rosTopics := r.rosTopics ++ [(sig, "/dg__" ++ sig)] }, w)
  | some t =>
    (emit e (.rosPublishAdd "vector" t ("/dg__" ++ t)) w).bind fun w =>
    (emit e (.plugSig sig t) w).bind fun w =>
    .ok ({ r with rosTopics := r.rosTopics ++ [(t, "/dg__" ++ t)] }, w)

/-- The loop of `Robot.export_device_dg_to_ros` over `self.device_signals_names`. -/
def exportLoop (e : Env) (r : Robot) (names : List String) (w : World) :
    Except Event (Robot × World) :=
  match names with
  | [] => .ok (r, w)
  | s :: rest =>
    (export_signal_to_ros e r (r.device.signal s) (some ("device__" ++ s)) w).bind fun p =>
    exportLoop e p.1 rest p.2

/-- Method `Robot.export_device_dg_to_ros`. -/
def export_device_dg_to_ros (e : Env) (r : Robot) (w : World) :
    Except Event (Robot × World) :=
  exportLoop e r r.device_signals_names w

/-- The loop `for s in self.tracedSignals['device']: self.add_trace(self.device.name, s)`. -/
def addTraceLoop (e : Env) (r : Robot) (names : List String) (w : World) :
    Except Event (Robot × World) :=
  match names with
  | [] => .ok (r, w)
  | s :: rest =>
    (add_trace e r r.device.name s w).bind fun p =>
    addTraceLoop e p.1 rest p.2

/-- Method `Robot.__init__(name, device, tracer)`: install an injected tracer if
given, run `initialize_tracer`, collect the short names of all device
signals into `tracedSignals['device']` and `device_signals_names`, trace
each one, construct the `Ros` bridge (modelled from the spec: the
constructor of `dynamic_graph_manager.ros.Ros` is not under this
fragment's sources and per the spec only "creates a transport bridge"),
schedule the downsampled `rosPublish.trigger`, and export every device
signal to ROS. -/
def robotInit (e : Env) (name : String) (device : Device) (tracer : Option TracerRealTime)
    (w : World) : Except Event (Robot × World) :=
  let r : Robot := { name := name, device := device, tracer := tracer,
                     tracedSignalsDevice := [], device_signals_names := [],
                     hasRos := false, rosTopics := [] }
  (initialize_tracer e r w).bind fun p =>
  let names := p.1.device.signalNames.map shortName
  let r := { p.1 with tracedSignalsDevice := names, device_signals_names := names }
  (addTraceLoop e r names p.2).bind fun p =>
  let r := { p.1 with hasRos := true }
  (emit e (.afterAddDownsampled "rosPublish.trigger" 1) p.2).bind fun w =>
  let r := { r with device :=
      { r.device with afterDownsampled := r.device.afterDownsampled ++ [("rosPublish.trigger", 1)] } }
  export_device_dg_to_ros e r w

/-! ### Derived descriptions of the states produced by the operations -/

/-- An environment in which no external call fails. -/
def Env.allOk (e : Env) : Prop := ∀ ev, e.fails ev = false

/-- The `<entity>.<signal>` names recorded for a list of short signal names. -/
def traceEntries (entity : String) (names : List String) : List String :=
  names.map (fun s => entity ++ "." ++ s)

/-- External calls performed by the `add_trace` loop over `names`. -/
def traceEvents (entity : String) (names : List String) : List Event :=
  (names.map (fun s =>
    [Event.traceAdd (entity ++ "." ++ s), Event.afterAddSignal (entity ++ "." ++ s)])).flatten

/-- External calls performed by `export_device_dg_to_ros` over `names`,
with `sigs` the qualified signal names used for the lookup. -/
def exportEvents (sigs : List String) (names : List String) : List Event :=
  (names.map (fun s =>
    [Event.rosPublishAdd "vector" ("device__" ++ s) ("/dg__" ++ ("device__" ++ s)),
     Event.plugSig (sigLookup sigs s) ("device__" ++ s)])).flatten

/-- Topics registered by `export_device_dg_to_ros` over `names`. -/
def exportTopics (names : List String) : List (String × String) :=
  names.map (fun s => ("device__" ++ s, "/dg__" ++ ("device__" ++ s)))

/-- External calls performed by `initialize_tracer` when it creates the tracer. -/
def initEvents (e : Env) : List Event :=
  [Event.setBufferSize tracerSize,
   Event.tracerOpen (resolveLogDir e) "dg_" ".dat",
   Event.afterAddSignal ("trace" ++ ".triger")]

/-- The tracer built by `initialize_tracer` when none was injected. -/
def newTracer (e : Env) : TracerRealTime :=
  { name := "trace", bufferSize := some tracerSize,
    openedAt := some (resolveLogDir e, "dg_", ".dat"), running := false }

/-- Post-step list of the device of a successful run (empty on failure). -/
def afterOf : Except Event (Robot × World) → List String
  | .ok p => p.1.device.after
  | .error _ => []

/-- Event log of a successful run (empty on failure). -/
def eventsOf : Except Event (Robot × World) → List Event
  | .ok p => p.2.events
  | .error _ => []

/-- Shared cleanup list of a successful run (empty on failure). -/
def autoOf : Except Event (Robot × World) → List String
  | .ok p => p.2.autoRecomputedSignals
  | .error _ => []

/-- Tracer reference of the robot of a successful run (`none` on failure). -/
def tracerOf : Except Event (Robot × World) → Option TracerRealTime
  | .ok p => p.1.tracer
  | .error _ => none

/-- Recognize a `tracer.add` registration event. -/
def isTraceAddEv : Event → Bool
  | .traceAdd _ => true
  | _ => false

/-- Recognize a `rosPublish.add` registration event. -/
def isRosAddEv : Event → Bool
  | .rosPublishAdd _ _ _ => true
  | _ => false

/-- Recognize a `plug` event. -/
def isPlugEv : Event → Bool
  | .plugSig _ _ => true
  | _ => false

/-- Recognize a `tracer.open` event. -/
def isOpenEv : Event → Bool
  | .tracerOpen _ _ _ => true
  | _ => false

/-- Recognize either of the two ROS registration events. -/
def isRosEv : Event → Bool
  | .rosPublishAdd _ _ _ => true
  | .plugSig _ _ => true
  | _ => false

/-- Chars strictly before the first occurrence of `"::"`, if any. -/
def beforeSep : List Char → Option (List Char)
  | ':' :: ':' :: _ => some []
  | c :: rest => (beforeSep rest).map (fun l => c :: l)
  | [] => none

/-- Modelled from the spec: "the part of the signal's qualified name after
the last '::' separator" — the suffix following the last occurrence of the
substring `"::"` in the name (the whole name when `"::"` does not occur),
computed by locating the first `"::"` of the reversed name. -/
def specShortName (q : String) : String :=
  match beforeSep q.data.reverse with
  | some b => String.mk b.reverse
  | none => q

/-- Concrete fault-free environment whose parameter lookup fails. -/
def env0 : Env :=
  { getParamResult := .error (), home := "/home/user",
    timestamp := "2019_01_01_00_00_00", fails := fun _ => false }

/-- Concrete device with one signal. -/
def dev0 : Device :=
  { name := "device", signalNames := ["Device::joint_positions"],
    after := [], afterDownsampled := [] }

/-- Concrete device whose signal name has overlapping `"::"` occurrences. -/
def devColon : Device :=
  { name := "device", signalNames := ["a:::b"], after := [], afterDownsampled := [] }

/-- A second concrete device, for two-instance scenarios. -/
def devB : Device :=
  { name := "deviceB", signalNames := ["DeviceB::torques"],
    after := [], afterDownsampled := [] }

/-- Fresh process state: empty cleanup list, empty event log. -/
def w0 : World := { autoRecomputedSignals := [], events := [] }

/-- A caller-injected tracer: unsized, unopened. -/
def trInj : TracerRealTime :=
  { name := "inj", bufferSize := none, openedAt := none, running := false }

/-- A robot with no tracer (as after `stop_tracer`). -/
def rBare : Robot :=
  { name := "bare", device := dev0, tracer := none, tracedSignalsDevice := [],
    device_signals_names := [], hasRos := false, rosTopics := [] }

/-- A robot holding a live tracer. -/
def rLive : Robot :=
  { name := "live", device := dev0, tracer := some (newTracer env0),
    tracedSignalsDevice := [], device_signals_names := [], hasRos := false, rosTopics := [] }

/-- Result of stopping `rLive`, used to exercise idempotence of teardown. -/
def c3res : Robot × World := ((stop_tracer env0 rLive w0).toOption).getD (rLive, w0)

/-- Environment failing exactly the `tracer.open` call. -/
def envFailOpen : Env :=
  { env0 with fails := fun ev => isOpenEv ev }

/-- Environment failing exactly the `device.after.addSignal` calls. -/
def envFailAddSignal : Env :=
  { env0 with fails := fun ev => match ev with | .afterAddSignal _ => true | _ => false }

/-- Environment failing every external call. -/
def envFailAll : Env :=
  { env0 with fails := fun _ => true }

/-- Construction followed by teardown of the same robot. -/
def c1run : Except Event (Robot × World) :=
  (robotInit env0 "solo" dev0 none w0).bind fun p => stop_tracer env0 p.1 p.2

/-- Construction with an injected tracer. -/
def c5run : Except Event (Robot × World) :=
  robotInit env0 "withInjected" dev0 (some trInj) w0

theorem bind_eq_ok {ε α β : Type} {x : Except ε α} {f : α → Except ε β} {b : β}
    (h : x.bind f = .ok b) : ∃ a, x = .ok a ∧ f a = .ok b := by
  cases x with
  | error e => simp [Except.bind] at h
  | ok a => exact ⟨a, rfl, by simpa [Except.bind] using h⟩

theorem emit_allOk {e : Env} (hok : e.allOk) (ev : Event) (w : World) :
    emit e ev w = .ok { w with events := w.events ++ [ev] } := by
  have hf : ∀ ev, e.fails ev = false := hok
  simp [emit, hf ev]

/-- Lemma: `emit` never touches the shared cleanup list. -/
theorem emit_ok_auto {e : Env} {ev : Event} {w w' : World} (h : emit e ev w = .ok w') :
    w'.autoRecomputedSignals = w.autoRecomputedSignals := by
  unfold emit at h
  split at h
  · exact absurd h (by simp)
  · cases h
    rfl

theorem addTraceLoop_allOk {e : Env} (hok : e.allOk) (r : Robot) (names : List String)
    (w : World) {tr : TracerRealTime} (htr : r.tracer = some tr) :
    addTraceLoop e r names w =
      .ok ({ r with device :=
              { r.device with after := r.device.after ++ traceEntries r.device.name names } },
           { w with
              autoRecomputedSignals :=
                w.autoRecomputedSignals ++ traceEntries r.device.name names,
              events := w.events ++ traceEvents r.device.name names }) := by
  have hf : ∀ ev, e.fails ev = false := hok
  induction names generalizing r w with
  | nil => simp [addTraceLoop, traceEntries, traceEvents]
  | cons s rest ih =>
    simp [addTraceLoop, add_trace, htr, addTrace, emit, hf, Except.bind, ih,
          traceEntries, traceEvents, List.append_assoc]

theorem exportLoop_allOk {e : Env} (hok : e.allOk) (r : Robot) (names : List String)
    (w : World) :
    exportLoop e r names w =
      .ok ({ r with rosTopics := r.rosTopics ++ exportTopics names },
           { w with events := w.events ++ exportEvents r.device.signalNames names }) := by
  have hf : ∀ ev, e.fails ev = false := hok
  induction names generalizing r w with
  | nil => simp [exportLoop, exportTopics, exportEvents]
  | cons s rest ih =>
    simp [exportLoop, export_signal_to_ros, Device.signal, emit, hf, Except.bind, ih,
          exportTopics, exportEvents, List.append_assoc]

theorem rmLoop_allOk {e : Env} (hok : e.allOk) (dev : Device) (names : List String)
    (w : World) :
    rmLoop e dev names w =
      .ok ({ dev with after := names.foldl (fun l s => l.erase s) dev.after },
           { w with events := w.events ++ names.map Event.afterRmSignal }) := by
  have hf : ∀ ev, e.fails ev = false := hok
  induction names generalizing dev w with
  | nil => simp [rmLoop]
  | cons s rest ih =>
    simp [rmLoop, emit, hf, Except.bind, ih, List.append_assoc]

/-- Lemma: `rmLoop` never touches the shared cleanup list, whatever the environment. -/
theorem rmLoop_ok_auto {e : Env} {dev : Device} {names : List String} {w : World}
    {p : Device × World} (h : rmLoop e dev names w = .ok p) :
    p.2.autoRecomputedSignals = w.autoRecomputedSignals := by
  induction names generalizing dev w with
  | nil =>
    rw [rmLoop] at h
    cases h
    rfl
  | cons s rest ih =>
    rw [rmLoop] at h
    obtain ⟨w1, hw1, hrest⟩ := bind_eq_ok h
    rw [ih hrest, emit_ok_auto hw1]

/-- Full description of `stop_tracer` on a robot with a live tracer, when
no external call fails: the four tracer teardown calls, one `rmSignal`
per entry of the shared cleanup list (erasing it from `device.after`),
and the tracer reference nulled. -/
theorem stop_tracer_some_allOk {e : Env} (hok : e.allOk) (r : Robot) (w : World)
    {tr : TracerRealTime} (htr : r.tracer = some tr) :
    stop_tracer e r w =
      .ok ({ r with
              tracer := none,
              device := { r.device with after :=
                w.autoRecomputedSignals.foldl (fun l s => l.erase s) r.device.after } },
           { w with events := w.events
                      ++ [Event.tracerDump, Event.tracerStop, Event.tracerClose, Event.tracerClear]
                      ++ w.autoRecomputedSignals.map Event.afterRmSignal }) := by
  have hf : ∀ ev, e.fails ev = false := hok
  simp [stop_tracer, htr, emit, hf, Except.bind, rmLoop_allOk hok, List.append_assoc]

/-- Full description of `Robot.__init__` with no injected tracer, when no
external call fails. -/
theorem robotInit_allOk {e : Env} (hok : e.allOk) (name : String) (dev : Device) (w : World) :
    robotInit e name dev none w =
      .ok ({ name := name,
             device := { name := dev.name, signalNames := dev.signalNames,
                         after := dev.after ++ ["trace" ++ ".triger"]
                                    ++ traceEntries dev.name (dev.signalNames.map shortName),
                         afterDownsampled := dev.afterDownsampled ++ [("rosPublish.trigger", 1)] },
             tracer := some (newTracer e),
             tracedSignalsDevice := dev.signalNames.map shortName,
             device_signals_names := dev.signalNames.map shortName,
             hasRos := true,
             rosTopics := exportTopics (dev.signalNames.map shortName) },
           { autoRecomputedSignals :=
               w.autoRecomputedSignals ++ traceEntries dev.name (dev.signalNames.map shortName),
             events := w.events ++ initEvents e
                        ++ traceEvents dev.name (dev.signalNames.map shortName)
                        ++ [Event.afterAddDownsampled "rosPublish.trigger" 1]
                        ++ exportEvents dev.signalNames (dev.signalNames.map shortName) }) := by
  have hf : ∀ ev, e.fails ev = false := hok
  simp [robotInit, initialize_tracer, emit, hf, Except.bind, newTracer, initEvents,
        export_device_dg_to_ros, addTraceLoop_allOk hok, exportLoop_allOk hok,
        List.append_assoc]

/-- Full description of `Robot.__init__` with an injected tracer, when no
external call fails: the tracer is reused untouched (no buffer sizing, no
open, no trigger scheduling), and only the tracing and export phases run. -/
theorem robotInit_injected_allOk {e : Env} (hok : e.allOk) (name : String) (dev : Device)
    (tr0 : TracerRealTime) (w : World) :
    robotInit e name dev (some tr0) w =
      .ok ({ name := name,
             device := { name := dev.name, signalNames := dev.signalNames,
                         after := dev.after
                                    ++ traceEntries dev.name (dev.signalNames.map shortName),
                         afterDownsampled := dev.afterDownsampled ++ [("rosPublish.trigger", 1)] },
             tracer := some tr0,
             tracedSignalsDevice := dev.signalNames.map shortName,
             device_signals_names := dev.signalNames.map shortName,
             hasRos := true,
             rosTopics := exportTopics (dev.signalNames.map shortName) },
           { autoRecomputedSignals :=
               w.autoRecomputedSignals ++ traceEntries dev.name (dev.signalNames.map shortName),
             events := w.events
                        ++ traceEvents dev.name (dev.signalNames.map shortName)
                        ++ [Event.afterAddDownsampled "rosPublish.trigger" 1]
                        ++ exportEvents dev.signalNames (dev.signalNames.map shortName) }) := by
  have hf : ∀ ev, e.fails ev = false := hok
  simp [robotInit, initialize_tracer, emit, hf, Except.bind,
        export_device_dg_to_ros, addTraceLoop_allOk hok, exportLoop_allOk hok,
        List.append_assoc]

/-- Erasing, one by one, a batch of names appended after a prefix that
contains none of them recovers exactly the prefix. -/
theorem foldl_erase_append (pre names : List String) (h : ∀ n ∈ names, n ∉ pre) :
    names.foldl (fun l s => l.erase s) (pre ++ names) = pre := by
  induction names generalizing pre with
  | nil => simp
  | cons s rest ih =>
    have hs : s ∉ pre := h s (List.mem_cons_self s rest)
    rw [List.foldl_cons]
    have herase : (pre ++ s :: rest).erase s = pre ++ rest := by
      rw [List.erase_append_right _ hs, List.erase_cons_head]
    rw [herase, ih pre (fun n hn => h n (List.mem_cons_of_mem _ hn))]

/-- Event counts of the tracing phase: one `tracer.add` per signal, no ROS
registration. -/
theorem counts_traceEvents (entity : String) (names : List String) :
    (traceEvents entity names).countP isTraceAddEv = names.length
      ∧ (traceEvents entity names).countP isRosAddEv = 0
      ∧ (traceEvents entity names).countP isPlugEv = 0 := by
  induction names with
  | nil => simp [traceEvents]
  | cons s rest ih =>
    have hstep : traceEvents entity (s :: rest)
        = Event.traceAdd (entity ++ "." ++ s) :: Event.afterAddSignal (entity ++ "." ++ s)
            :: traceEvents entity rest := rfl
    rw [hstep]
    simp [List.countP_cons, isTraceAddEv, isRosAddEv, isPlugEv, ih.1, ih.2.1, ih.2.2]

/-- Event counts of the export phase: one `rosPublish.add` and one `plug`
per signal, no trace registration. -/
theorem counts_exportEvents (sigs : List String) (names : List String) :
    (exportEvents sigs names).countP isRosAddEv = names.length
      ∧ (exportEvents sigs names).countP isPlugEv = names.length
      ∧ (exportEvents sigs names).countP isTraceAddEv = 0 := by
  induction names with
  | nil => simp [exportEvents]
  | cons s rest ih =>
    have hstep : exportEvents sigs (s :: rest)
        = Event.rosPublishAdd "vector" ("device__" ++ s) ("/dg__" ++ ("device__" ++ s))
            :: Event.plugSig (sigLookup sigs s) ("device__" ++ s)
            :: exportEvents sigs rest := rfl
    rw [hstep]
    simp [List.countP_cons, isTraceAddEv, isRosAddEv, isPlugEv, ih.1, ih.2.1, ih.2.2]

/-- The tracing phase opens no tracer. -/
theorem counts_open_traceEvents (entity : String) (names : List String) :
    (traceEvents entity names).countP isOpenEv = 0 := by
  induction names with
  | nil => simp [traceEvents]
  | cons s rest ih =>
    have hstep : traceEvents entity (s :: rest)
        = Event.traceAdd (entity ++ "." ++ s) :: Event.afterAddSignal (entity ++ "." ++ s)
            :: traceEvents entity rest := rfl
    rw [hstep]
    simp [List.countP_cons, isOpenEv, ih]

/-- The export phase opens no tracer. -/
theorem counts_open_exportEvents (sigs : List String) (names : List String) :
    (exportEvents sigs names).countP isOpenEv = 0 := by
  induction names with
  | nil => simp [exportEvents]
  | cons s rest ih =>
    have hstep : exportEvents sigs (s :: rest)
        = Event.rosPublishAdd "vector" ("device__" ++ s) ("/dg__" ++ ("device__" ++ s))
            :: Event.plugSig (sigLookup sigs s) ("device__" ++ s)
            :: exportEvents sigs rest := rfl
    rw [hstep]
    simp [List.countP_cons, isOpenEv, ih]

/-- The tracing phase performs no ROS registration. -/
theorem filter_ros_traceEvents (entity : String) (names : List String) :
    (traceEvents entity names).filter isRosEv = [] := by
  induction names with
  | nil => simp [traceEvents]
  | cons s rest ih =>
    have hstep : traceEvents entity (s :: rest)
        = Event.traceAdd (entity ++ "." ++ s) :: Event.afterAddSignal (entity ++ "." ++ s)
            :: traceEvents entity rest := rfl
    rw [hstep]
    simp [List.filter_cons, isRosEv, ih]

/-- The export phase consists solely of ROS registrations. -/
theorem filter_ros_exportEvents (sigs : List String) (names : List String) :
    (exportEvents sigs names).filter isRosEv = exportEvents sigs names := by
  induction names with
  | nil => simp [exportEvents]
  | cons s rest ih =>
    have hstep : exportEvents sigs (s :: rest)
        = Event.rosPublishAdd "vector" ("device__" ++ s) ("/dg__" ++ ("device__" ++ s))
            :: Event.plugSig (sigLookup sigs s) ("device__" ++ s)
            :: exportEvents sigs rest := rfl
    rw [hstep]
    simp [List.filter_cons, isRosEv, ih]

/-! ### Claims -/

/-- C1, counterexample: the claim says teardown removes every entry that
construction scheduled in the device's post-step list, in particular every
signal scheduled via `device.after`.  But the tracer trigger signal
`trace.triger`, scheduled via `device.after.addSignal` during
construction (the event is in the log), is still in the post-step list
after `stop_tracer`: only the `autoRecomputedSignals` entries are removed. -/
theorem C1_counterexample :
    Event.afterAddSignal ("trace" ++ ".triger")
        ∈ eventsOf (robotInit env0 "solo" dev0 none w0)
      ∧ afterOf c1run = ["trace" ++ ".triger"] := by
  constructor
  · decide
  · decide

/-- C1, amended: for a robot constructed in a fresh process (empty shared
cleanup list), `stop_tracer` removes from `device.after` exactly the
entries recorded by the `add_trace` calls of construction, leaving every
other entry — the pre-existing ones and the `trace.triger` entry
scheduled by `initialize_tracer` — unchanged. -/
theorem C1_stop_removes_exactly_cleanup_entries (e : Env) (name : String) (dev : Device)
    (w : World) (hok : e.allOk) (hfresh : w.autoRecomputedSignals = [])
    (hdisj : ∀ n ∈ traceEntries dev.name (dev.signalNames.map shortName),
        n ∉ dev.after ∧ n ≠ "trace" ++ ".triger") :
    ((robotInit e name dev none w).bind fun p => stop_tracer e p.1 p.2).map
        (fun p => p.1.device.after)
      = .ok (dev.after ++ ["trace" ++ ".triger"]) := by
  rw [robotInit_allOk hok]
  simp only [Except.bind]
  rw [stop_tracer_some_allOk hok _ _ rfl]
  simp only [Except.map, hfresh, List.nil_append]
  have h2 : ∀ n ∈ traceEntries dev.name (dev.signalNames.map shortName),
      n ∉ dev.after ++ ["trace" ++ ".triger"] := by
    intro n hn
    have hd := hdisj n hn
    have hd2 : n ≠ "trace.triger" := hd.2
    simp [List.mem_append, hd.1, hd2]
  have h3 := foldl_erase_append (dev.after ++ ["trace" ++ ".triger"])
      (traceEntries dev.name (dev.signalNames.map shortName)) h2
  simpa [List.append_assoc] using h3

theorem C1_stop_removes_exactly_cleanup_entries_witness :
    ((robotInit env0 "solo" dev0 none w0).bind fun p => stop_tracer env0 p.1 p.2).map
        (fun p => p.1.device.after)
      = .ok (dev0.after ++ ["trace" ++ ".triger"]) :=
  C1_stop_removes_exactly_cleanup_entries env0 "solo" dev0 w0
    (fun _ => rfl) rfl (by decide)

/-- C3: a first successful `stop_tracer` nulls the tracer reference, and a
second `stop_tracer` (or a `__del__` after it) returns the state
unchanged: no tracer operation, no removal, no event. -/
theorem C3_stop_tracer_idempotent (e : Env) (r : Robot) (w : World) (r' : Robot) (w' : World)
    (h : stop_tracer e r w = .ok (r', w')) :
    r'.tracer = none
      ∧ stop_tracer e r' w' = .ok (r', w')
      ∧ robotDel e r' w' = .ok (r', w') := by
  have hnone : r'.tracer = none := by
    cases htr : r.tracer with
    | none =>
      rw [stop_tracer, htr] at h
      cases h
      exact htr
    | some tr =>
      rw [stop_tracer, htr] at h
      obtain ⟨w1, h1, h⟩ := bind_eq_ok h
      obtain ⟨w2, h2, h⟩ := bind_eq_ok h
      obtain ⟨w3, h3, h⟩ := bind_eq_ok h
      obtain ⟨w4, h4, h⟩ := bind_eq_ok h
      obtain ⟨p, hp, h⟩ := bind_eq_ok h
      cases h
      rfl
  exact ⟨hnone, by rw [stop_tracer, hnone], by rw [robotDel, hnone]⟩

theorem C3_stop_tracer_idempotent_witness :
    c3res.1.tracer = none
      ∧ stop_tracer env0 c3res.1 c3res.2 = .ok (c3res.1, c3res.2)
      ∧ robotDel env0 c3res.1 c3res.2 = .ok (c3res.1, c3res.2) :=
  C3_stop_tracer_idempotent env0 rLive w0 c3res.1 c3res.2 rfl

/-- C10: once the tracer reference is `none` (as after `stop_tracer`),
`start_tracer` and `add_trace` are no-ops: they perform no external call,
append nothing to the cleanup list, and leave robot and world unchanged. -/
theorem C10_noop_after_stop (e : Env) (r : Robot) (w : World) (en sn : String)
    (h : r.tracer = none) :
    start_tracer e r w = .ok (r, w) ∧ add_trace e r en sn w = .ok (r, w) :=
  ⟨by rw [start_tracer, h], by rw [add_trace, h]⟩

theorem C10_noop_after_stop_witness :
    start_tracer env0 rBare w0 = .ok (rBare, w0)
      ∧ add_trace env0 rBare "device" "sig" w0 = .ok (rBare, w0) :=
  C10_noop_after_stop env0 rBare w0 "device" "sig" rfl

/-- C2: constructing a `Robot` with a device exposing N signals performs
exactly N trace registrations (`tracer.add` calls, via `addTrace`) and
exactly N topic publications (N `rosPublish.add` calls and N `plug`
calls), whether the tracer is created or injected. -/
theorem C2_construction_counts (e : Env) (name : String) (dev : Device) (w : World)
    (hok : e.allOk) (hev : w.events = []) :
    ((robotInit e name dev none w).map fun p =>
        (p.2.events.countP isTraceAddEv, p.2.events.countP isRosAddEv,
         p.2.events.countP isPlugEv))
      = .ok (dev.signalNames.length, dev.signalNames.length, dev.signalNames.length)
    ∧ ∀ tr0 : TracerRealTime,
      ((robotInit e name dev (some tr0) w).map fun p =>
        (p.2.events.countP isTraceAddEv, p.2.events.countP isRosAddEv,
         p.2.events.countP isPlugEv))
      = .ok (dev.signalNames.length, dev.signalNames.length, dev.signalNames.length) := by
  have ht := counts_traceEvents dev.name (dev.signalNames.map shortName)
  have hx := counts_exportEvents dev.signalNames (dev.signalNames.map shortName)
  constructor
  · rw [robotInit_allOk hok]
    simp [Except.map, hev, List.countP_append, List.countP_cons, initEvents,
          isTraceAddEv, isRosAddEv, isPlugEv, ht.1, ht.2.1, ht.2.2, hx.1, hx.2.1, hx.2.2]
  · intro tr0
    rw [robotInit_injected_allOk hok]
    simp [Except.map, hev, List.countP_append, List.countP_cons,
          isTraceAddEv, isRosAddEv, isPlugEv, ht.1, ht.2.1, ht.2.2, hx.1, hx.2.1, hx.2.2]

theorem C2_construction_counts_witness :
    ((robotInit env0 "solo" dev0 none w0).map fun p =>
        (p.2.events.countP isTraceAddEv, p.2.events.countP isRosAddEv,
         p.2.events.countP isPlugEv))
      = .ok (dev0.signalNames.length, dev0.signalNames.length, dev0.signalNames.length)
    ∧ ((robotInit env0 "inj" dev0 (some trInj) w0).map fun p =>
        (p.2.events.countP isTraceAddEv, p.2.events.countP isRosAddEv,
         p.2.events.countP isPlugEv))
      = .ok (dev0.signalNames.length, dev0.signalNames.length, dev0.signalNames.length) :=
  ⟨(C2_construction_counts env0 "solo" dev0 w0 (fun _ => rfl) rfl).1,
   (C2_construction_counts env0 "inj" dev0 w0 (fun _ => rfl) rfl).2 trInj⟩

/-- C4: when the remote parameter lookup fails, the tracer is opened at
the local fallback path `<home>/.dynamic_graph_manager/<timestamp>`; and
this is the only failure the code recovers from: a raised exception in
any other external call of any `Robot` operation propagates as-is. -/
theorem C4_fallback_path_only_handled_failure :
    (∀ e : Env, ∀ r : Robot, ∀ w : World, e.allOk →
      e.getParamResult = .error () → r.tracer = none →
      (initialize_tracer e r w).map (fun p => p.1.tracer)
        = .ok (some { name := "trace", bufferSize := some tracerSize,
                      openedAt := some (e.home ++ "/" ++ ".dynamic_graph_manager"
                                          ++ "/" ++ e.timestamp, "dg_", ".dat"),
                      running := false }))
    ∧ (∀ e : Env, ∀ r : Robot, ∀ w : World, r.tracer = none →
        e.fails (.setBufferSize tracerSize) = true →
        initialize_tracer e r w = .error (.setBufferSize tracerSize))
    ∧ (∀ e : Env, ∀ r : Robot, ∀ w : World, r.tracer = none →
        e.fails (.setBufferSize tracerSize) = false →
        e.fails (.tracerOpen (resolveLogDir e) "dg_" ".dat") = true →
        initialize_tracer e r w = .error (.tracerOpen (resolveLogDir e) "dg_" ".dat"))
    ∧ (∀ e : Env, ∀ r : Robot, ∀ w : World, r.tracer = none →
        e.fails (.setBufferSize tracerSize) = false →
        e.fails (.tracerOpen (resolveLogDir e) "dg_" ".dat") = false →
        e.fails (.afterAddSignal ("trace" ++ ".triger")) = true →
        initialize_tracer e r w = .error (.afterAddSignal ("trace" ++ ".triger")))
    ∧ (∀ e : Env, ∀ r : Robot, ∀ w : World, ∀ tr : TracerRealTime, r.tracer = some tr →
        e.fails .tracerStart = true →
        start_tracer e r w = .error .tracerStart)
    ∧ (∀ e : Env, ∀ r : Robot, ∀ w : World, ∀ tr : TracerRealTime, r.tracer = some tr →
        e.fails .tracerDump = true →
        stop_tracer e r w = .error .tracerDump)
    ∧ (∀ e : Env, ∀ r : Robot, ∀ w : World, ∀ tr : TracerRealTime, ∀ en sn : String,
        r.tracer = some tr →
        e.fails (.traceAdd (en ++ "." ++ sn)) = true →
        add_trace e r en sn w = .error (.traceAdd (en ++ "." ++ sn)))
    ∧ (∀ e : Env, ∀ r : Robot, ∀ w : World, ∀ sig t : String,
        e.fails (.rosPublishAdd "vector" t ("/dg__" ++ t)) = true →
        export_signal_to_ros e r sig (some t) w
          = .error (.rosPublishAdd "vector" t ("/dg__" ++ t))) := by
  refine ⟨?_, ?_, ?_, ?_, ?_, ?_, ?_, ?_⟩
  · intro e r w hok hparam htr
    have hf : ∀ ev, e.fails ev = false := hok
    simp [initialize_tracer, htr, emit, hf, Except.bind, Except.map, resolveLogDir, hparam]
  · intro e r w htr hfail
    simp [initialize_tracer, htr, emit, hfail, Except.bind]
  · intro e r w htr h1 h2
    simp [initialize_tracer, htr, emit, h1, h2, Except.bind]
  · intro e r w htr h1 h2 h3
    have h3' : e.fails (Event.afterAddSignal "trace.triger") = true := h3
    simp [initialize_tracer, htr, emit, h1, h2, h3', Except.bind]
  · intro e r w tr htr hfail
    simp [start_tracer, htr, emit, hfail, Except.bind]
  · intro e r w tr htr hfail
    simp [stop_tracer, htr, emit, hfail, Except.bind]
  · intro e r w tr en sn htr hfail
    simp [add_trace, htr, addTrace, emit, hfail, Except.bind]
  · intro e r w sig t hfail
    simp [export_signal_to_ros, emit, hfail, Except.bind]

theorem C4_fallback_path_only_handled_failure_witness :
    ((initialize_tracer env0 rBare w0).map (fun p => p.1.tracer)
        = .ok (some { name := "trace", bufferSize := some tracerSize,
                      openedAt := some (env0.home ++ "/" ++ ".dynamic_graph_manager"
                                          ++ "/" ++ env0.timestamp, "dg_", ".dat"),
                      running := false }))
    ∧ initialize_tracer envFailAll rBare w0 = .error (.setBufferSize tracerSize)
    ∧ initialize_tracer envFailOpen rBare w0
        = .error (.tracerOpen (resolveLogDir envFailOpen) "dg_" ".dat")
    ∧ initialize_tracer envFailAddSignal rBare w0
        = .error (.afterAddSignal ("trace" ++ ".triger"))
    ∧ start_tracer envFailAll rLive w0 = .error .tracerStart
    ∧ stop_tracer envFailAll rLive w0 = .error .tracerDump
    ∧ add_trace envFailAll rLive "device" "sig" w0
        = .error (.traceAdd ("device" ++ "." ++ "sig"))
    ∧ export_signal_to_ros envFailAll rBare "Device::sig" (some "device__sig") w0
        = .error (.rosPublishAdd "vector" "device__sig" ("/dg__" ++ "device__sig")) :=
  ⟨C4_fallback_path_only_handled_failure.1 env0 rBare w0 (fun _ => rfl) rfl rfl,
   C4_fallback_path_only_handled_failure.2.1 envFailAll rBare w0 rfl rfl,
   C4_fallback_path_only_handled_failure.2.2.1 envFailOpen rBare w0 rfl rfl rfl,
   C4_fallback_path_only_handled_failure.2.2.2.1 envFailAddSignal rBare w0 rfl rfl rfl rfl,
   C4_fallback_path_only_handled_failure.2.2.2.2.1 envFailAll rLive w0 _ rfl rfl,
   C4_fallback_path_only_handled_failure.2.2.2.2.2.1 envFailAll rLive w0 _ rfl rfl,
   C4_fallback_path_only_handled_failure.2.2.2.2.2.2.1 envFailAll rLive w0 _ "device" "sig" rfl rfl,
   C4_fallback_path_only_handled_failure.2.2.2.2.2.2.2 envFailAll rBare w0 "Device::sig"
     "device__sig" rfl⟩

/-- C5, counterexample: with an injected tracer, construction reuses it
untouched.  The injected tracer ends up active but is neither sized nor
opened, no `tracer.open` call happens at all, and its trigger signal
`inj.triger` is neither scheduled in `device.after` nor ever the argument
of an `addSignal` call — contradicting the claim that the active tracer is
always sized, opened and trigger-scheduled. -/
theorem C5_counterexample :
    tracerOf c5run = some trInj
      ∧ trInj.bufferSize = none
      ∧ trInj.openedAt = none
      ∧ ("inj" ++ ".triger") ∉ afterOf c5run
      ∧ Event.afterAddSignal ("inj" ++ ".triger") ∉ eventsOf c5run
      ∧ (eventsOf c5run).countP isOpenEv = 0 :=
  ⟨by decide, rfl, rfl, by decide, by decide, by decide⟩

/-- C5, amended: after construction exactly one tracer is active (the
reference is non-`None`).  When no tracer is injected, a fresh tracer
named `trace` is created, its buffer sized to `tracerSize`, opened at the
resolved log directory, and `trace.triger` is scheduled in the device's
post-step list.  When a tracer is injected it is reused exactly as given:
nothing is sized, opened or scheduled for it. -/
theorem C5_tracer_active_after_construction (e : Env) (name : String) (dev : Device)
    (w : World) (hok : e.allOk) (hev : w.events = []) :
    (((robotInit e name dev none w).map fun p => (p.1.tracer, p.1.device.after))
        = .ok (some { name := "trace", bufferSize := some tracerSize,
                      openedAt := some (resolveLogDir e, "dg_", ".dat"), running := false },
               dev.after ++ ["trace" ++ ".triger"]
                 ++ traceEntries dev.name (dev.signalNames.map shortName)))
    ∧ ∀ tr0 : TracerRealTime,
        ((robotInit e name dev (some tr0) w).map fun p =>
            (p.1.tracer, p.1.device.after, p.2.events.countP isOpenEv))
          = .ok (some tr0,
                 dev.after ++ traceEntries dev.name (dev.signalNames.map shortName), 0) := by
  constructor
  · rw [robotInit_allOk hok]
    simp [Except.map, newTracer]
  · intro tr0
    rw [robotInit_injected_allOk hok]
    simp [Except.map, hev, List.countP_append, List.countP_cons, isOpenEv,
          counts_open_traceEvents, counts_open_exportEvents]

theorem C5_tracer_active_after_construction_witness :
    (((robotInit env0 "solo" dev0 none w0).map fun p => (p.1.tracer, p.1.device.after))
        = .ok (some { name := "trace", bufferSize := some tracerSize,
                      openedAt := some (resolveLogDir env0, "dg_", ".dat"), running := false },
               dev0.after ++ ["trace" ++ ".triger"]
                 ++ traceEntries dev0.name (dev0.signalNames.map shortName)))
    ∧ ((robotInit env0 "withInjected" dev0 (some trInj) w0).map fun p =>
          (p.1.tracer, p.1.device.after, p.2.events.countP isOpenEv))
        = .ok (some trInj,
               dev0.after ++ traceEntries dev0.name (dev0.signalNames.map shortName), 0) :=
  ⟨(C5_tracer_active_after_construction env0 "solo" dev0 w0 (fun _ => rfl) rfl).1,
   (C5_tracer_active_after_construction env0 "withInjected" dev0 w0
      (fun _ => rfl) rfl).2 trInj⟩

/-- C6: the ROS registrations of construction are, in order and per device
signal `s` (short name), first `rosPublish.add("vector", "device__" + s,
"/dg__" + ("device__" + s))` and then `plug`; and the transport topic
`"/dg__" + ("device__" + s)` is the string `"/dg__device__" + s`. -/
theorem C6_topic_naming (e : Env) (name : String) (dev : Device) (w : World)
    (hok : e.allOk) (hev : w.events = []) :
    ((robotInit e name dev none w).map fun p => p.2.events.filter isRosEv)
        = .ok (exportEvents dev.signalNames (dev.signalNames.map shortName))
    ∧ ∀ s : String, "/dg__" ++ ("device__" ++ s) = "/dg__device__" ++ s := by
  constructor
  · rw [robotInit_allOk hok]
    simp [Except.map, hev, List.filter_append, List.filter_cons, initEvents, isRosEv,
          filter_ros_traceEvents, filter_ros_exportEvents]
  · intro s
    rw [← String.append_assoc]
    rfl

theorem C6_topic_naming_witness :
    ((robotInit env0 "solo" dev0 none w0).map fun p => p.2.events.filter isRosEv)
        = .ok (exportEvents dev0.signalNames (dev0.signalNames.map shortName))
    ∧ "/dg__" ++ ("device__" ++ "joint_positions") = "/dg__device__" ++ "joint_positions" :=
  ⟨(C6_topic_naming env0 "solo" dev0 w0 (fun _ => rfl) rfl).1,
   (C6_topic_naming env0 "solo" dev0 w0 (fun _ => rfl) rfl).2 "joint_positions"⟩

/-- C7, counterexample: for the qualified signal name `"a:::b"` (with
overlapping `"::"` occurrences), Python's non-overlapping left-to-right
split — used by the code — yields the short name `":b"` and construction
records `"device.:b"`, whereas the part of the name after the last
occurrence of `"::"` is `"b"`.  So the short name used for registration is
not always "the part after the last '::' separator". -/
theorem C7_counterexample :
    autoOf (robotInit env0 "colon" devColon none w0)
        = ["device" ++ "." ++ shortName "a:::b"]
      ∧ shortName "a:::b" = ":b"
      ∧ specShortName "a:::b" = "b"
      ∧ shortName "a:::b" ≠ specShortName "a:::b" :=
  ⟨by decide, by decide, by decide, by decide⟩

/-- C7, amended: the short name used for registration is the last field of
the left-to-right non-overlapping split of the qualified name on `"::"`
(Python `str.split` semantics; this equals the part after the last `"::"`
whenever occurrences of the separator do not overlap).  Construction only
appends to the cleanup list: it leaves the previous contents as a prefix
and adds exactly one `<entity>.<signal>` entry per device signal. -/
theorem C7_cleanup_entries_appended (e : Env) (name : String) (dev : Device) (w : World)
    (hok : e.allOk) :
    ((robotInit e name dev none w).map fun p => p.2.autoRecomputedSignals)
      = .ok (w.autoRecomputedSignals
               ++ traceEntries dev.name (dev.signalNames.map shortName)) := by
  rw [robotInit_allOk hok]
  simp [Except.map]

theorem C7_cleanup_entries_appended_witness :
    ((robotInit env0 "solo" dev0 none w0).map fun p => p.2.autoRecomputedSignals)
      = .ok (w0.autoRecomputedSignals
               ++ traceEntries dev0.name (dev0.signalNames.map shortName)) :=
  C7_cleanup_entries_appended env0 "solo" dev0 w0 (fun _ => rfl)

/-- C8: the cleanup list is process-wide shared state.  `stop_tracer`
iterates the current shared `autoRecomputedSignals` list — whatever any
instance put there — removing each entry from its own device's post-step
list; a second `Robot` constructed in the same process appends its
entries to the very same list; consequently, after two constructions,
tearing down the first robot also runs removals for the entries recorded
by the second. -/
theorem C8_cleanup_list_shared_across_instances :
    (∀ e : Env, ∀ r : Robot, ∀ w : World, ∀ tr : TracerRealTime,
      e.allOk → r.tracer = some tr →
      (stop_tracer e r w).map (fun p => (p.1.device.after, p.2.events))
        = .ok (w.autoRecomputedSignals.foldl (fun l s => l.erase s) r.device.after,
               w.events
                 ++ [Event.tracerDump, Event.tracerStop, Event.tracerClose, Event.tracerClear]
                 ++ w.autoRecomputedSignals.map Event.afterRmSignal))
    ∧ (∀ e : Env, ∀ n1 n2 : String, ∀ dA dB : Device, ∀ w : World, e.allOk →
        ((robotInit e n1 dA none w).bind fun p1 => robotInit e n2 dB none p1.2).map
            (fun p => p.2.autoRecomputedSignals)
          = .ok (w.autoRecomputedSignals
                  ++ traceEntries dA.name (dA.signalNames.map shortName)
                  ++ traceEntries dB.name (dB.signalNames.map shortName)))
    ∧ (∀ e : Env, ∀ n1 n2 : String, ∀ dA dB : Device, ∀ w : World, e.allOk →
        w.autoRecomputedSignals = [] →
        ((robotInit e n1 dA none w).bind fun p1 =>
           (robotInit e n2 dB none p1.2).bind fun p2 =>
             stop_tracer e p1.1 p2.2).map (fun p => p.1.device.after)
          = .ok ((traceEntries dA.name (dA.signalNames.map shortName)
                   ++ traceEntries dB.name (dB.signalNames.map shortName)).foldl
                    (fun l s => l.erase s)
                    (dA.after ++ ["trace" ++ ".triger"]
                      ++ traceEntries dA.name (dA.signalNames.map shortName)))) := by
  refine ⟨?_, ?_, ?_⟩
  · intro e r w tr hok htr
    rw [stop_tracer_some_allOk hok _ _ htr]
    simp [Except.map]
  · intro e n1 n2 dA dB w hok
    rw [robotInit_allOk hok]
    simp only [Except.bind]
    rw [robotInit_allOk hok]
    simp [Except.map, List.append_assoc]
  · intro e n1 n2 dA dB w hok hfresh
    rw [robotInit_allOk hok]
    simp only [Except.bind]
    rw [robotInit_allOk hok]
    simp only [Except.bind]
    rw [stop_tracer_some_allOk hok _ _ rfl]
    simp [Except.map, hfresh, List.append_assoc]

theorem C8_cleanup_list_shared_across_instances_witness :
    ((stop_tracer env0 rLive
          { w0 with autoRecomputedSignals := ["deviceB" ++ "." ++ "torques"] }).map
        (fun p => (p.1.device.after, p.2.events))
      = .ok ((["deviceB" ++ "." ++ "torques"]).foldl
                (fun l s => l.erase s) rLive.device.after,
             w0.events
               ++ [Event.tracerDump, Event.tracerStop, Event.tracerClose, Event.tracerClear]
               ++ (["deviceB" ++ "." ++ "torques"]).map Event.afterRmSignal))
    ∧ (((robotInit env0 "first" dev0 none w0).bind fun p1 =>
          robotInit env0 "second" devB none p1.2).map
            (fun p => p.2.autoRecomputedSignals)
        = .ok (w0.autoRecomputedSignals
                ++ traceEntries dev0.name (dev0.signalNames.map shortName)
                ++ traceEntries devB.name (devB.signalNames.map shortName)))
    ∧ (((robotInit env0 "first" dev0 none w0).bind fun p1 =>
          (robotInit env0 "second" devB none p1.2).bind fun p2 =>
            stop_tracer env0 p1.1 p2.2).map (fun p => p.1.device.after)
        = .ok ((traceEntries dev0.name (dev0.signalNames.map shortName)
                 ++ traceEntries devB.name (devB.signalNames.map shortName)).foldl
                  (fun l s => l.erase s)
                  (dev0.after ++ ["trace" ++ ".triger"]
                    ++ traceEntries dev0.name (dev0.signalNames.map shortName)))) :=
  ⟨C8_cleanup_list_shared_across_instances.1 env0 rLive
      { w0 with autoRecomputedSignals := ["deviceB" ++ "." ++ "torques"] }
      (newTracer env0) (fun _ => rfl) rfl,
   C8_cleanup_list_shared_across_instances.2.1 env0 "first" "second" dev0 devB w0
      (fun _ => rfl),
   C8_cleanup_list_shared_across_instances.2.2 env0 "first" "second" dev0 devB w0
      (fun _ => rfl) rfl⟩

/-- C9: `stop_tracer` never shrinks the shared cleanup list: any
successful `stop_tracer` — under any environment — leaves
`autoRecomputedSignals` exactly as it was; and a `Robot` constructed after
a construct-then-teardown sequence inherits the stale entries of the
first robot as a prefix of the shared list. -/
theorem C9_cleanup_list_never_cleared :
    (∀ e : Env, ∀ r : Robot, ∀ w : World, ∀ p : Robot × World,
      stop_tracer e r w = .ok p →
      p.2.autoRecomputedSignals = w.autoRecomputedSignals)
    ∧ (∀ e : Env, ∀ n1 n2 : String, ∀ dA dB : Device, ∀ w : World, e.allOk →
        w.autoRecomputedSignals = [] →
        ((robotInit e n1 dA none w).bind fun p1 =>
           (stop_tracer e p1.1 p1.2).bind fun p2 =>
             robotInit e n2 dB none p2.2).map (fun p => p.2.autoRecomputedSignals)
          = .ok (traceEntries dA.name (dA.signalNames.map shortName)
                  ++ traceEntries dB.name (dB.signalNames.map shortName))) := by
  constructor
  · intro e r w p h
    cases htr : r.tracer with
    | none =>
      rw [stop_tracer, htr] at h
      cases h
      rfl
    | some tr =>
      rw [stop_tracer, htr] at h
      obtain ⟨w1, h1, h⟩ := bind_eq_ok h
      obtain ⟨w2, h2, h⟩ := bind_eq_ok h
      obtain ⟨w3, h3, h⟩ := bind_eq_ok h
      obtain ⟨w4, h4, h⟩ := bind_eq_ok h
      obtain ⟨q, hq, h⟩ := bind_eq_ok h
      cases h
      exact (rmLoop_ok_auto hq).trans ((emit_ok_auto h4).trans ((emit_ok_auto h3).trans
        ((emit_ok_auto h2).trans (emit_ok_auto h1))))
  · intro e n1 n2 dA dB w hok hfresh
    rw [robotInit_allOk hok]
    simp only [Except.bind]
    rw [stop_tracer_some_allOk hok _ _ rfl]
    simp only [Except.bind]
    rw [robotInit_allOk hok]
    simp [Except.map, hfresh, List.append_assoc]

theorem C9_cleanup_list_never_cleared_witness :
    c3res.2.autoRecomputedSignals = w0.autoRecomputedSignals
    ∧ ((robotInit env0 "first" dev0 none w0).bind fun p1 =>
         (stop_tracer env0 p1.1 p1.2).bind fun p2 =>
           robotInit env0 "second" devB none p2.2).map (fun p => p.2.autoRecomputedSignals)
        = .ok (traceEntries dev0.name (dev0.signalNames.map shortName)
                ++ traceEntries devB.name (devB.signalNames.map shortName)) :=
  ⟨C9_cleanup_list_never_cleared.1 env0 rLive w0 (c3res.1, c3res.2) rfl,
   C9_cleanup_list_never_cleared.2 env0 "first" "second" dev0 devB w0
      (fun _ => rfl) rfl⟩

end DGM
